import Mathlib

/-!
# Verification of the `fastify-hookly` plugin registration and validator

Shallow embedding of `src/index.ts`: the runtime type guard
`isCreateDebuggerOptions` over dynamically-typed JavaScript values, and the
plugin registration routine (`plugin`) that creates one `hookable` registry,
decorates the server and request scopes with lazy accessors for it, wires
optional `before`/`after` observers, conditionally enables the debugger, and
registers a try/finally shutdown handler.
-/

namespace FastifyHookly

/-- A JavaScript runtime value, as far as the plugin's dynamic checks observe
it: `undefined`, `null`, the primitives, functions (identified by an id and
carrying their `.length` arity), arrays and plain objects.  Arrays and objects
carry their named own properties as an association list (array index and
`length` properties are never consulted by the code under verification and
are not modelled). -/
inductive JSValue where
  | vundefined
  | vnull
  | vbool (b : Bool)
  | vnum (n : Int)
  | vstr (s : String)
  | vfunc (fid : Nat) (arity : Nat)
  | varr (props : List (String × JSValue))
  | vobj (fields : List (String × JSValue))

/-- JavaScript `typeof` operator.  Note `typeof null === 'object'` and arrays
are `'object'` while functions are `'function'`. -/
def jsTypeof : JSValue → String
  | .vundefined => "undefined"
  | .vnull => "object"
  | .vbool _ => "boolean"
  | .vnum _ => "number"
  | .vstr _ => "string"
  | .vfunc _ _ => "function"
  | .varr _ => "object"
  | .vobj _ => "object"

/-- JavaScript `value === null`. -/
def isNull : JSValue → Bool
  | .vnull => true
  | _ => false

/-- JavaScript `key in value` on object-like values (total version, used after
the code's `typeof value === 'object'` guard has ensured the operand is an
object).  Functions own `length` and `name`. -/
def hasField : JSValue → String → Bool
  | .vobj fields, key => fields.any (fun p => p.1 == key)
  | .varr props, key => props.any (fun p => p.1 == key)
  | .vfunc _ _, key => key == "length" || key == "name"
  | _, _ => false

/-- JavaScript property read `value.key` (total version): absent properties
read as `undefined`; a function's `length` is its declared arity; a string's
`length` is its length. -/
def getField : JSValue → String → JSValue
  | .vobj fields, key => (((fields.find? (fun p => p.1 == key)).map Prod.snd).getD .vundefined)
  | .varr props, key => (((props.find? (fun p => p.1 == key)).map Prod.snd).getD .vundefined)
  | .vfunc _ arity, key => if key == "length" then .vnum arity else .vundefined
  | .vstr s, key => if key == "length" then .vnum s.length else .vundefined
  | _, _ => .vundefined

/-- The `.length` (declared parameter count) of a function value; `0` on
non-functions (only ever consulted under a `typeof f === 'function'` guard). -/
def funcArity : JSValue → Nat
  | .vfunc _ arity => arity
  | _ => 0

/-- Embedding of `isCreateDebuggerOptions` (src/index.ts lines 110-126),
mirroring its guard chain:

```
if (typeof value !== 'object' || value === null) return false;
if ('tag' in o && typeof o.tag !== 'string') return false;
if ('inspect' in o && typeof o.inspect !== 'boolean') return false;
if ('group' in o && typeof o.group !== 'boolean') return false;
if ('filter' in o) \x7b
  const isString = typeof o.filter === 'string';
  const isFunction = typeof o.filter === 'function' && o.filter.length <= 1;
  if (!isString && !isFunction) return false;
\x7d
return true;
``` -/
def isCreateDebuggerOptions (value : JSValue) : Bool :=
  if jsTypeof value != "object" || isNull value then false
  else if hasField value "tag" && jsTypeof (getField value "tag") != "string" then false
  else if hasField value "inspect" && jsTypeof (getField value "inspect") != "boolean" then false
  else if hasField value "group" && jsTypeof (getField value "group") != "boolean" then false
  else if hasField value "filter"
      && !(jsTypeof (getField value "filter") == "string"
           || (jsTypeof (getField value "filter") == "function"
               && decide (funcArity (getField value "filter") ≤ 1))) then false
  else true

/-- Spec-side notion of a "non-null structure": an object or an array
(a value whose fields can be read), as opposed to `null`, primitives and
callables. -/
def isStructure : JSValue → Bool
  | .vobj _ => true
  | .varr _ => true
  | _ => false

/-- Spec-side: "if the field is present, its value satisfies the check". -/
def fieldOk (v : JSValue) (key : String) (check : JSValue → Bool) : Bool :=
  !hasField v key || check (getField v key)

/-- The value is a text string. -/
def isJSString : JSValue → Bool
  | .vstr _ => true
  | _ => false

/-- The value is a boolean. -/
def isJSBool : JSValue → Bool
  | .vbool _ => true
  | _ => false

/-- The value is callable. -/
def isJSFunction : JSValue → Bool
  | .vfunc _ _ => true
  | _ => false

/-- Spec-side: "EITHER a text string OR a callable value accepting at most one
positional parameter" (§4.2 of the spec). -/
def specFilterOk (f : JSValue) : Bool :=
  isJSString f || (isJSFunction f && decide (funcArity f ≤ 1))

/-- The validator contract transcribed from the spec's words (§4.2): the value
is a non-null structure and each of the optional fields `tag` / `inspect` /
`group` / `filter`, when present, has the required type; other fields are
ignored. -/
def specDebuggerOptionsValid (v : JSValue) : Bool :=
  isStructure v
  && fieldOk v "tag" isJSString
  && fieldOk v "inspect" isJSBool
  && fieldOk v "group" isJSBool
  && fieldOk v "filter" specFilterOk

example : isCreateDebuggerOptions (.vobj []) = true := by decide
example : isCreateDebuggerOptions .vnull = false := by decide
example : isCreateDebuggerOptions (.vobj [("tag", .vnum 123)]) = false := by decide
example : isCreateDebuggerOptions (.vobj [("filter", .vfunc 7 1)]) = true := by decide
example : isCreateDebuggerOptions (.vobj [("filter", .vfunc 7 2)]) = false := by decide
example : isCreateDebuggerOptions (.vfunc 0 0) = false := by decide
example : isCreateDebuggerOptions (.varr [("x", .vnum 1)]) = true := by decide

/-- `typeof x === 'string'` detects exactly the string values. -/
theorem jsTypeof_string (x : JSValue) : (jsTypeof x == "string") = isJSString x := by
  cases x <;> rfl

/-- `typeof x === 'boolean'` detects exactly the boolean values. -/
theorem jsTypeof_boolean (x : JSValue) : (jsTypeof x == "boolean") = isJSBool x := by
  cases x <;> rfl

/-- `typeof x === 'function'` detects exactly the callable values. -/
theorem jsTypeof_function (x : JSValue) : (jsTypeof x == "function") = isJSFunction x := by
  cases x <;> rfl

/-- `typeof` of a plain object is `'object'`. -/
theorem jsTypeof_vobj (fields : List (String × JSValue)) :
    jsTypeof (JSValue.vobj fields) = "object" := rfl

/-- `typeof` of an array is `'object'`. -/
theorem jsTypeof_varr (props : List (String × JSValue)) :
    jsTypeof (JSValue.varr props) = "object" := rfl

/-- Shared helper: the guard chain of `isCreateDebuggerOptions` computes
exactly the spec's conjunction of per-field conditions. -/
theorem isCreateDebuggerOptions_eq_spec (v : JSValue) :
    isCreateDebuggerOptions v = specDebuggerOptionsValid v := by
  cases v with
  | vobj fields =>
    simp only [isCreateDebuggerOptions, specDebuggerOptionsValid, isNull,
      isStructure, fieldOk, specFilterOk, bne, jsTypeof_string, jsTypeof_boolean,
      jsTypeof_function, jsTypeof_vobj, beq_self_eq_true, Bool.not_true, Bool.or_false,
      Bool.false_or, Bool.true_and]
    generalize hasField (JSValue.vobj fields) "tag" = t1
    generalize isJSString (getField (JSValue.vobj fields) "tag") = a1
    generalize hasField (JSValue.vobj fields) "inspect" = t2
    generalize isJSBool (getField (JSValue.vobj fields) "inspect") = a2
    generalize hasField (JSValue.vobj fields) "group" = t3
    generalize isJSBool (getField (JSValue.vobj fields) "group") = a3
    generalize hasField (JSValue.vobj fields) "filter" = t4
    generalize isJSString (getField (JSValue.vobj fields) "filter") = s4
    generalize isJSFunction (getField (JSValue.vobj fields) "filter") = f4
    generalize decide (funcArity (getField (JSValue.vobj fields) "filter") ≤ 1) = l4
    revert t1 a1 t2 a2 t3 a3 t4 s4 f4 l4
    decide
  | varr props =>
    simp only [isCreateDebuggerOptions, specDebuggerOptionsValid, isNull,
      isStructure, fieldOk, specFilterOk, bne, jsTypeof_string, jsTypeof_boolean,
      jsTypeof_function, jsTypeof_varr, beq_self_eq_true, Bool.not_true, Bool.or_false,
      Bool.false_or, Bool.true_and]
    generalize hasField (JSValue.varr props) "tag" = t1
    generalize isJSString (getField (JSValue.varr props) "tag") = a1
    generalize hasField (JSValue.varr props) "inspect" = t2
    generalize isJSBool (getField (JSValue.varr props) "inspect") = a2
    generalize hasField (JSValue.varr props) "group" = t3
    generalize isJSBool (getField (JSValue.varr props) "group") = a3
    generalize hasField (JSValue.varr props) "filter" = t4
    generalize isJSString (getField (JSValue.varr props) "filter") = s4
    generalize isJSFunction (getField (JSValue.varr props) "filter") = f4
    generalize decide (funcArity (getField (JSValue.varr props) "filter") ≤ 1) = l4
    revert t1 a1 t2 a2 t3 a3 t4 s4 f4 l4
    decide
  | vundefined => rfl
  | vnull => rfl
  | vbool b => rfl
  | vnum n => rfl
  | vstr s => rfl
  | vfunc fid arity => rfl

/-!
## Throwing semantics for the validator

JavaScript's `in` operator and member access are not total: `'tag' in 5`
raises a `TypeError`, and member access on `null`/`undefined` raises.  To
state that the validator never throws, we re-run its body in an `Except`
monad where each primitive JS operation may raise exactly where real
JavaScript raises, and prove the result always agrees with the total
embedding above. -/

/-- JavaScript `key in value`: raises a `TypeError` unless the right operand
is object-like (object, array or function). -/
def jsInE (key : String) (v : JSValue) : Except String Bool :=
  match v with
  | .vobj fields => .ok (fields.any (fun p => p.1 == key))
  | .varr props => .ok (props.any (fun p => p.1 == key))
  | .vfunc _ _ => .ok (key == "length" || key == "name")
  | _ => .error "TypeError: cannot use in operator"

/-- JavaScript member access `value.key`: raises a `TypeError` on `null` and
`undefined`; primitives are auto-boxed (our keys read as `undefined` except a
string's `length`). -/
def jsGetE (v : JSValue) (key : String) : Except String JSValue :=
  match v with
  | .vnull => .error "TypeError: cannot read properties of null"
  | .vundefined => .error "TypeError: cannot read properties of undefined"
  | .vobj fields => .ok (((fields.find? (fun p => p.1 == key)).map Prod.snd).getD .vundefined)
  | .varr props => .ok (((props.find? (fun p => p.1 == key)).map Prod.snd).getD .vundefined)
  | .vfunc _ arity => .ok (if key == "length" then .vnum arity else .vundefined)
  | .vstr s => .ok (if key == "length" then .vnum s.length else .vundefined)
  | _ => .ok .vundefined

/-- JavaScript `x <= k` for a number value (only ever applied to a function's
numeric `.length` in the code under verification). -/
def jsNumLe (v : JSValue) (k : Int) : Bool :=
  match v with
  | .vnum n => decide (n ≤ k)
  | _ => false

/-- Reduction of `Except.bind` at an `ok` result. -/
theorem exceptBind_ok {ε α β : Type} (a : α) (f : α → Except ε β) :
    Except.bind (Except.ok a) f = f a := rfl

/-- Reduction of `Except.map` at an `ok` result. -/
theorem exceptMap_ok {ε α β : Type} (f : α → β) (a : α) :
    Except.map f (Except.ok a : Except ε α) = Except.ok (f a) := rfl

/-- `isCreateDebuggerOptions`, re-run under the throwing semantics: same
guard chain, with every `in` and member access performed by the partial JS
operations.  The conjunctions mirror JavaScript's left-to-right
short-circuit evaluation. -/
def isCreateDebuggerOptionsE (value : JSValue) : Except String Bool :=
  if jsTypeof value != "object" || isNull value then .ok false
  else
    (jsInE "tag" value).bind fun htag =>
    (if htag then (jsGetE value "tag").map (fun t => jsTypeof t != "string")
     else .ok false).bind fun badTag =>
    if badTag then .ok false
    else
      (jsInE "inspect" value).bind fun hins =>
      (if hins then (jsGetE value "inspect").map (fun t => jsTypeof t != "boolean")
       else .ok false).bind fun badIns =>
      if badIns then .ok false
      else
        (jsInE "group" value).bind fun hgrp =>
        (if hgrp then (jsGetE value "group").map (fun t => jsTypeof t != "boolean")
         else .ok false).bind fun badGrp =>
        if badGrp then .ok false
        else
          (jsInE "filter" value).bind fun hfil =>
          (if hfil then
            (jsGetE value "filter").bind fun f =>
            (if jsTypeof f == "function" then (jsGetE f "length").map (fun len => jsNumLe len 1)
             else .ok false).bind fun isFunction =>
            .ok (!(jsTypeof f == "string") && !isFunction)
           else .ok false).bind fun badFil =>
          if badFil then .ok false
          else .ok true

/-- `jsGetE` on a plain object succeeds with the looked-up field. -/
theorem jsGetE_vobj (fields : List (String × JSValue)) (key : String) :
    jsGetE (JSValue.vobj fields) key
      = .ok (((fields.find? (fun p => p.1 == key)).map Prod.snd).getD .vundefined) := rfl

/-- `jsGetE` on an array succeeds with the looked-up property. -/
theorem jsGetE_varr (props : List (String × JSValue)) (key : String) :
    jsGetE (JSValue.varr props) key
      = .ok (((props.find? (fun p => p.1 == key)).map Prod.snd).getD .vundefined) := rfl

/-- The throwing evaluation of the `filter` branch
(`typeof o.filter === 'function' && o.filter.length <= 1`, combined with
`isString` into `!isString && !isFunction`) never raises and computes the
negation of the total embedding's filter condition. -/
theorem filterCheckE (f : JSValue) :
    (Except.bind (if jsTypeof f == "function"
        then Except.map (fun len => jsNumLe len 1) (jsGetE f "length")
        else Except.ok false)
      (fun isFunction => Except.ok (!(jsTypeof f == "string") && !isFunction)))
    = Except.ok (!(jsTypeof f == "string"
        || (jsTypeof f == "function" && decide (funcArity f ≤ 1)))) := by
  cases f <;>
    simp [jsGetE, jsNumLe, funcArity, jsTypeof, exceptBind_ok, exceptMap_ok,
      decide_eq_decide]

/-- Decidable equality of validator outcomes. -/
instance : DecidableEq (Except String Bool) := fun a b =>
  match a, b with
  | .ok x, .ok y =>
    if h : x = y then .isTrue (by rw [h]) else .isFalse (fun c => by cases c; exact h rfl)
  | .error x, .error y =>
    if h : x = y then .isTrue (by rw [h]) else .isFalse (fun c => by cases c; exact h rfl)
  | .ok _, .error _ => .isFalse (fun c => by cases c)
  | .error _, .ok _ => .isFalse (fun c => by cases c)

/-- The abstract shape of the validator guard chain, once every primitive JS
operation has been reduced: the `Except`-monadic chain returns `ok` of
exactly what the total chain computes, whatever the field-test outcomes. -/
theorem guardChainE : ∀ (t1 a1 t2 a2 t3 a3 t4 b4 : Bool),
    (if false = true then (Except.ok false : Except String Bool) else
      Except.bind (if t1 = true then Except.ok (!a1) else Except.ok false) (fun badTag =>
      if badTag = true then Except.ok false else
      Except.bind (if t2 = true then Except.ok (!a2) else Except.ok false) (fun badIns =>
      if badIns = true then Except.ok false else
      Except.bind (if t3 = true then Except.ok (!a3) else Except.ok false) (fun badGrp =>
      if badGrp = true then Except.ok false else
      Except.bind (if t4 = true then Except.ok (!b4) else Except.ok false) (fun badFil =>
      if badFil = true then Except.ok false else Except.ok true)))))
    = Except.ok (if false = true then false else
        if (t1 && !a1) = true then false else
        if (t2 && !a2) = true then false else
        if (t3 && !a3) = true then false else
        if (t4 && !b4) = true then false else true) := by
  decide

/-- Shared helper: under the throwing semantics the validator never raises,
and it returns exactly the boolean computed by the total embedding. -/
theorem isCreateDebuggerOptionsE_ok (v : JSValue) :
    isCreateDebuggerOptionsE v = .ok (isCreateDebuggerOptions v) := by
  cases v with
  | vobj fields =>
    simp only [isCreateDebuggerOptionsE, isCreateDebuggerOptions, isNull, bne,
      jsTypeof_vobj, beq_self_eq_true, Bool.not_true, Bool.or_false, Bool.false_or,
      jsInE, hasField, getField, jsGetE_vobj, exceptBind_ok, exceptMap_ok, filterCheckE]
    exact guardChainE _ _ _ _ _ _ _ _
  | varr props =>
    simp only [isCreateDebuggerOptionsE, isCreateDebuggerOptions, isNull, bne,
      jsTypeof_varr, beq_self_eq_true, Bool.not_true, Bool.or_false, Bool.false_or,
      jsInE, hasField, getField, jsGetE_varr, exceptBind_ok, exceptMap_ok, filterCheckE]
    exact guardChainE _ _ _ _ _ _ _ _
  | vundefined => rfl
  | vnull => rfl
  | vbool b => rfl
  | vnum n => rfl
  | vstr s => rfl
  | vfunc fid arity => rfl

/-!
## The hookable registry

The hook-dispatch engine is the external `hookable` library: an out-of-scope
collaborator per the spec (§1).  Modelled from the spec: a registry holds the
named hooks (callbacks identified by the id of the registered function
value), the global `beforeEach` / `afterEach` observers, and an allocation
identity used to state reference equality; `callHook` invokes every `before`
observer, then the hook's callbacks in order, then every `after` observer,
each receiving the event descriptor `\x7b name, args, context \x7d` (§4.1
Effect 3 and the glossary). -/

/-- An allocator for object identities: `next` is the next fresh id,
`registryAllocs` counts how many registries `createHooks` has produced. -/
structure Alloc where
  next : Nat
  registryAllocs : Nat

/-- Modelled from the spec: the hook registry of the external hook-dispatch
engine (`Hookable`).  `id` is the allocation identity of the registry object;
`hooks` maps hook names to the ordered callback ids registered for them. -/
structure Registry where
  id : Nat
  hooks : List (String × List Nat)
  beforeObs : List Nat
  afterObs : List Nat

/-- Modelled from the spec: `createHooks()` — instantiate a fresh, empty
registry (exactly one allocation is recorded per call). -/
def createHooks (a : Alloc) : Registry × Alloc :=
  ({ id := a.next, hooks := [], beforeObs := [], afterObs := [] },
   { next := a.next + 1, registryAllocs := a.registryAllocs + 1 })

/-- Append a callback id to the entry for `name`, creating the entry if it
does not exist yet. -/
def addCallback : List (String × List Nat) → String → Nat → List (String × List Nat)
  | [], name, cb => [(name, [cb])]
  | (n, cbs) :: rest, name, cb =>
    if n == name then (n, cbs ++ [cb]) :: rest else (n, cbs) :: addCallback rest name cb

/-- Modelled from the spec: `hookable.hook(name, cb)` — register a callback
for a named hook. -/
def hookRegister (r : Registry) (name : String) (cb : Nat) : Registry :=
  { r with hooks := addCallback r.hooks name cb }

/-- The ordered callback ids currently registered for a hook name. -/
def hookCallbacks (r : Registry) (name : String) : List Nat :=
  ((r.hooks.find? (fun p => p.1 == name)).map Prod.snd).getD []

/-- Modelled from the spec: `hookable.beforeEach(obs)` — register a global
pre-dispatch observer. -/
def beforeEach (r : Registry) (obs : Nat) : Registry :=
  { r with beforeObs := r.beforeObs ++ [obs] }

/-- Modelled from the spec: `hookable.afterEach(obs)` — register a global
post-dispatch observer. -/
def afterEach (r : Registry) (obs : Nat) : Registry :=
  { r with afterObs := r.afterObs ++ [obs] }

/-- Modelled from the spec: `hookable.removeAllHooks()` — bulk removal of
every registered hook. -/
def removeAllHooks (r : Registry) : Registry :=
  { r with hooks := [] }

/-- One observable step of a single `callHook` dispatch.  Every event carries
the event descriptor data: the invoked hook's `name`, the ordered argument
sequence `args` of that invocation, and the id `ctx` of the mutable context
bag shared by that one dispatch. -/
inductive DispatchEvent where
  | beforeCall (obs : Nat) (name : String) (args : List JSValue) (ctx : Nat)
  | hookCall (cb : Nat) (name : String) (args : List JSValue) (ctx : Nat)
  | afterCall (obs : Nat) (name : String) (args : List JSValue) (ctx : Nat)

/-- Modelled from the spec: `hookable.callHook(name, ...args)` — the trace of
one dispatch: every `before` observer fires first, then the callbacks
registered for `name` in order, then every `after` observer; all of them see
the same `\x7b name, args, context \x7d` descriptor (`ctx` is the id of the
context bag allocated for this dispatch). -/
def callHook (r : Registry) (name : String) (args : List JSValue) (ctx : Nat) : List DispatchEvent :=
  (r.beforeObs.map (fun o => DispatchEvent.beforeCall o name args ctx))
    ++ ((hookCallbacks r name).map (fun c => DispatchEvent.hookCall c name args ctx))
    ++ (r.afterObs.map (fun o => DispatchEvent.afterCall o name args ctx))

/-!
## The plugin registration routine

Embedding of `plugin` (src/index.ts lines 145-181).  Fastify itself is the
host framework (out of scope): its decoration mechanism is modelled by the
accessor functions stored in the registration result, and its `onClose`
lifecycle event by running the registered handler (`runOnClose`) at shutdown.
-/

/-- The behaviour of the user-supplied `close` option: absent, a callback
that completes normally, or one that throws/rejects with an error. -/
inductive CloseSpec where
  | absent
  | succeeds
  | fails (err : String)
  deriving DecidableEq

/-- The plugin options structure (`FastifyHookableOptions`): all fields
optional.  `before` / `after` / `debuggerOptions` are arbitrary JavaScript
values (`vundefined` when absent); `close` is described by its behaviour. -/
structure Options where
  close : CloseSpec
  before : JSValue
  after : JSValue
  debuggerOptions : JSValue

/-- The id of a function value (only consulted under a
`typeof f === 'function'` guard). -/
def funcId : JSValue → Nat
  | .vfunc fid _ => fid
  | _ => 0

/-- The outcome of running the plugin registration routine: the single
`hookable` registry (with `hookableId` its allocation identity), the lazy
accessors decorated onto the Fastify instance scope and onto the request
scope (the latter indexed by an arbitrary request), the debugger handle id if
one was created, and the data captured by the registered `onClose` handler. -/
structure RegistrationResult where
  hookableId : Nat
  registry : Registry
  instGetter : Unit → Nat
  reqGetter : Nat → Nat
  debuggered : Option Nat
  closeBehavior : CloseSpec

/-- Embedding of `plugin` (src/index.ts lines 145-181):

```
const hookable = createHooks<Hooks>();
let debuggered;
fastify.decorate('hookable', \x7b getter: () => hookable \x7d);
fastify.decorateRequest('hookable', \x7b getter: () => hookable \x7d);
if (typeof opts.before === 'function') hookable.beforeEach(opts.before);
if (typeof opts.after === 'function') hookable.afterEach(opts.after);
if (isCreateDebuggerOptions(opts.debuggerOptions))
  debuggered = createDebugger(hookable, opts.debuggerOptions);
fastify.addHook('onClose', async () => \x7b ... \x7d);
done();
```

Both getters close over the one `hookable` object; the debugger handle, when
created, is a fresh allocation that is not a registry. -/
def pluginRegister (opts : Options) (a : Alloc) : RegistrationResult × Alloc :=
  match createHooks a with
  | (hookable, a1) =>
    let r1 := if jsTypeof opts.before == "function"
      then beforeEach hookable (funcId opts.before) else hookable
    let r2 := if jsTypeof opts.after == "function"
      then afterEach r1 (funcId opts.after) else r1
    if isCreateDebuggerOptions opts.debuggerOptions then
      ({ hookableId := hookable.id, registry := r2,
         instGetter := fun _ => hookable.id, reqGetter := fun _ => hookable.id,
         debuggered := some a1.next, closeBehavior := opts.close },
       { a1 with next := a1.next + 1 })
    else
      ({ hookableId := hookable.id, registry := r2,
         instGetter := fun _ => hookable.id, reqGetter := fun _ => hookable.id,
         debuggered := none, closeBehavior := opts.close },
       a1)

/-- The registration routine re-run with its one dynamically-unsafe step — the
validator call on the caller-supplied `debuggerOptions` — performed under the
throwing JS semantics: registration raises if and only if that step raises. -/
def pluginRegisterE (opts : Options) (a : Alloc) : Except String (RegistrationResult × Alloc) :=
  (isCreateDebuggerOptionsE opts.debuggerOptions).bind fun valid =>
  match createHooks a with
  | (hookable, a1) =>
    let r1 := if jsTypeof opts.before == "function"
      then beforeEach hookable (funcId opts.before) else hookable
    let r2 := if jsTypeof opts.after == "function"
      then afterEach r1 (funcId opts.after) else r1
    if valid then
      .ok ({ hookableId := hookable.id, registry := r2,
             instGetter := fun _ => hookable.id, reqGetter := fun _ => hookable.id,
             debuggered := some a1.next, closeBehavior := opts.close },
           { a1 with next := a1.next + 1 })
    else
      .ok ({ hookableId := hookable.id, registry := r2,
             instGetter := fun _ => hookable.id, reqGetter := fun _ => hookable.id,
             debuggered := none, closeBehavior := opts.close },
           a1)

/-!
## The shutdown handler

Embedding of the `onClose` handler (src/index.ts lines 170-178):

```
fastify.addHook('onClose', async () => \x7b
  try \x7b
    await opts.close?.();
  \x7d finally \x7b
    debuggered?.close();
    hookable.removeAllHooks();
  \x7d
\x7d);
```
-/

/-- One observable step of the shutdown sequence, in execution order. -/
inductive ShutdownEvent where
  | closeInvoked
  | debuggerClosed (handle : Nat)
  | hooksRemoved
  | errorPropagated (err : String)
  deriving DecidableEq

/-- The observable outcome of the shutdown handler: the ordered events, the
registry after the handler ran, and the error surfaced to Fastify's shutdown
mechanism (if any). -/
structure ShutdownResult where
  events : List ShutdownEvent
  registry : Registry
  error : Option String

/-- The error produced by awaiting the `close` callback, if any. -/
def closeError : CloseSpec → Option String
  | .fails e => some e
  | _ => none

/-- The `onClose` handler body.  `try`: `opts.close?.()` is invoked (and
awaited) unless absent.  `finally`: the debugger handle, if one was created,
is closed, then `removeAllHooks()` runs — on every exit path.  A failure from
the awaited `close` resumes propagating only after the `finally` block, and
is surfaced to the caller. -/
def runOnClose (close : CloseSpec) (debuggered : Option Nat) (hookable : Registry) :
    ShutdownResult :=
  let tryEvents : List ShutdownEvent :=
    match close with
    | .absent => []
    | .succeeds => [.closeInvoked]
    | .fails _ => [.closeInvoked]
  let finallyEvents : List ShutdownEvent :=
    (match debuggered with
     | some h => [.debuggerClosed h]
     | none => []) ++ [.hooksRemoved]
  let errEvents : List ShutdownEvent :=
    match closeError close with
    | some e => [.errorPropagated e]
    | none => []
  { events := tryEvents ++ finallyEvents ++ errEvents
    registry := removeAllHooks hookable
    error := closeError close }

/-- Shutdown of a server on which the plugin was registered: Fastify fires
the `onClose` handler registered by `pluginRegister`, with whatever registry
contents have accumulated by then. -/
def serverShutdown (res : RegistrationResult) (current : Registry) : ShutdownResult :=
  runOnClose res.closeBehavior res.debuggered current

/-- All hook registrations performed by the application during the server's
lifetime, applied in order. -/
def regAll (r : Registry) (regs : List (String × Nat)) : Registry :=
  regs.foldl (fun acc p => hookRegister acc p.1 p.2) r

/-!
## Structural facts about registration and dispatch
-/

/-- Both decorated accessors return the identity of the one registry that
`createHooks` allocated. -/
theorem pluginRegister_getters (opts : Options) (a : Alloc) (req : Nat) :
    (pluginRegister opts a).1.instGetter () = a.next
      ∧ (pluginRegister opts a).1.reqGetter req = a.next
      ∧ (pluginRegister opts a).1.hookableId = a.next
      ∧ (pluginRegister opts a).1.registry.id = a.next := by
  simp only [pluginRegister, createHooks]
  split <;> split <;> split <;> simp [beforeEach, afterEach]

/-- Registration makes exactly one registry allocation. -/
theorem pluginRegister_registryAllocs (opts : Options) (a : Alloc) :
    (pluginRegister opts a).2.registryAllocs = a.registryAllocs + 1 := by
  simp only [pluginRegister, createHooks]
  split <;> rfl

/-- The registered `onClose` handler captures the user's `close` behaviour. -/
theorem pluginRegister_closeBehavior (opts : Options) (a : Alloc) :
    (pluginRegister opts a).1.closeBehavior = opts.close := by
  simp only [pluginRegister, createHooks]
  split <;> rfl

/-- A debugger handle exists exactly when the validator accepted the
supplied `debuggerOptions`. -/
theorem pluginRegister_debuggered (opts : Options) (a : Alloc) :
    (pluginRegister opts a).1.debuggered
      = (if isCreateDebuggerOptions opts.debuggerOptions then some (a.next + 1) else none) := by
  simp only [pluginRegister, createHooks]
  split <;> simp_all

/-- The pre-dispatch observers wired at registration: the `before` option
exactly when it is callable. -/
theorem pluginRegister_beforeObs (opts : Options) (a : Alloc) :
    (pluginRegister opts a).1.registry.beforeObs
      = (if jsTypeof opts.before == "function" then [funcId opts.before] else []) := by
  simp only [pluginRegister, createHooks]
  split <;> split <;> split <;> simp_all [beforeEach, afterEach]

/-- The post-dispatch observers wired at registration: the `after` option
exactly when it is callable. -/
theorem pluginRegister_afterObs (opts : Options) (a : Alloc) :
    (pluginRegister opts a).1.registry.afterObs
      = (if jsTypeof opts.after == "function" then [funcId opts.after] else []) := by
  simp only [pluginRegister, createHooks]
  split <;> split <;> split <;> simp_all [beforeEach, afterEach]

/-- Registration under the throwing semantics never raises: it returns
exactly the pure registration outcome. -/
theorem pluginRegisterE_ok (opts : Options) (a : Alloc) :
    pluginRegisterE opts a = Except.ok (pluginRegister opts a) := by
  simp only [pluginRegisterE, pluginRegister, createHooks]
  rw [isCreateDebuggerOptionsE_ok, exceptBind_ok]
  split <;> rfl

/-- Registering hooks never touches the pre-dispatch observer list. -/
theorem regAll_beforeObs : ∀ (regs : List (String × Nat)) (r : Registry),
    (regAll r regs).beforeObs = r.beforeObs
  | [], _ => rfl
  | p :: rest, r => by
    simpa [regAll, hookRegister] using regAll_beforeObs rest (hookRegister r p.1 p.2)

/-- Registering hooks never touches the post-dispatch observer list. -/
theorem regAll_afterObs : ∀ (regs : List (String × Nat)) (r : Registry),
    (regAll r regs).afterObs = r.afterObs
  | [], _ => rfl
  | p :: rest, r => by
    simpa [regAll, hookRegister] using regAll_afterObs rest (hookRegister r p.1 p.2)

/-- After `removeAllHooks`, every hook name has no callbacks. -/
theorem hookCallbacks_removeAllHooks (r : Registry) (name : String) :
    hookCallbacks (removeAllHooks r) name = [] := rfl

/-!
## Claims
-/

/-- C1: `isCreateDebuggerOptions` returns true for an arbitrary input value
if and only if the value is a non-null structure in which each of the
optional fields, when present, has the required type: `tag` a string,
`inspect` a boolean, `group` a boolean, and `filter` either a string or a
callable accepting at most one positional parameter; fields outside the
checked set are ignored, the empty structure is valid, and every other input
yields false. -/
theorem validator_iff_spec_shape (v : JSValue) :
    isCreateDebuggerOptions v = specDebuggerOptionsValid v :=
  isCreateDebuggerOptions_eq_spec v

/-- C2: after registration, the accessor decorated on the server-wide scope
and the accessor decorated on every per-request scope return the same
(reference-identical) registry — the identity of the one registry allocated
for this server — and exactly one registry allocation happens; none is
cloned per request. -/
theorem single_shared_registry (opts : Options) (a : Alloc) (req : Nat) :
    (pluginRegister opts a).1.instGetter () = (pluginRegister opts a).1.reqGetter req
      ∧ (pluginRegister opts a).1.instGetter () = (pluginRegister opts a).1.registry.id
      ∧ (pluginRegister opts a).2.registryAllocs = a.registryAllocs + 1 := by
  obtain ⟨h1, h2, h3, h4⟩ := pluginRegister_getters opts a req
  exact ⟨h1.trans h2.symm, h1.trans h4.symm, pluginRegister_registryAllocs opts a⟩

/-- C3: if the user `close` callback fails, the cleanup block still executes
— the debugger handle (if created) is closed and all hooks are removed —
and the failure propagates to the host's shutdown mechanism only after that
cleanup, never swallowed. -/
theorem close_failure_still_cleans_up (e : String) (b af dbg : JSValue) (a : Alloc)
    (current : Registry) :
    (serverShutdown (pluginRegister ⟨.fails e, b, af, dbg⟩ a).1 current).error = some e
      ∧ (serverShutdown (pluginRegister ⟨.fails e, b, af, dbg⟩ a).1 current).events
          = [ShutdownEvent.closeInvoked]
            ++ (match (pluginRegister ⟨.fails e, b, af, dbg⟩ a).1.debuggered with
                | some h => [ShutdownEvent.debuggerClosed h]
                | none => [])
            ++ [ShutdownEvent.hooksRemoved, ShutdownEvent.errorPropagated e]
      ∧ ∀ name,
          hookCallbacks (serverShutdown (pluginRegister ⟨.fails e, b, af, dbg⟩ a).1 current).registry
            name = [] := by
  have hc := pluginRegister_closeBehavior ⟨.fails e, b, af, dbg⟩ a
  refine ⟨?_, ?_, ?_⟩
  · simp [serverShutdown, runOnClose, hc, closeError]
  · cases hd : (pluginRegister ⟨.fails e, b, af, dbg⟩ a).1.debuggered <;>
      simp [serverShutdown, runOnClose, hc, closeError, hd]
  · intro name
    simp [serverShutdown, runOnClose, hookCallbacks_removeAllHooks]

/-- C4: registration never raises — even when `debuggerOptions` is present
but malformed — and a debug-instrumentation handle is created exactly when
`debuggerOptions` passes the validator. -/
theorem invalid_debugger_options_silent (opts : Options) (a : Alloc) :
    pluginRegisterE opts a = Except.ok (pluginRegister opts a)
      ∧ (pluginRegister opts a).1.debuggered.isSome
          = isCreateDebuggerOptions opts.debuggerOptions := by
  refine ⟨pluginRegisterE_ok opts a, ?_⟩
  rw [pluginRegister_debuggered]
  cases isCreateDebuggerOptions opts.debuggerOptions <;> rfl

/-- C5: with callable `before` and `after` options, every dispatch through
the registry — whatever hooks the application registered — triggers exactly
one pre-dispatch call of `before` immediately before the hook callbacks and
exactly one post-dispatch call of `after` after all of them, each receiving
the event descriptor with the invoked hook's name and that invocation's
ordered argument list. -/
theorem observers_wrap_every_dispatch (f far g gar : Nat) (c : CloseSpec) (dbg : JSValue)
    (a : Alloc) (regs : List (String × Nat)) (name : String) (args : List JSValue) (ctx : Nat) :
    callHook (regAll (pluginRegister ⟨c, .vfunc f far, .vfunc g gar, dbg⟩ a).1.registry regs)
        name args ctx
      = DispatchEvent.beforeCall f name args ctx
          :: ((hookCallbacks
                (regAll (pluginRegister ⟨c, .vfunc f far, .vfunc g gar, dbg⟩ a).1.registry regs)
                name).map (fun cb => DispatchEvent.hookCall cb name args ctx)
              ++ [DispatchEvent.afterCall g name args ctx]) := by
  have hb : (regAll (pluginRegister ⟨c, .vfunc f far, .vfunc g gar, dbg⟩ a).1.registry regs).beforeObs
      = [f] := by
    rw [regAll_beforeObs, pluginRegister_beforeObs]
    rfl
  have ha : (regAll (pluginRegister ⟨c, .vfunc f far, .vfunc g gar, dbg⟩ a).1.registry regs).afterObs
      = [g] := by
    rw [regAll_afterObs, pluginRegister_afterObs]
    rfl
  simp [callHook, hb, ha]

/-- C6: on shutdown the supplied `close` callback is invoked exactly once
(and awaited), then the debugger handle (if any) is closed, then all hooks
are removed — exactly once, after `close` has run — so that a dispatch to
any previously-registered hook name afterwards finds no callbacks. -/
theorem shutdown_invokes_close_then_clears (opts : Options) (a : Alloc)
    (regs : List (String × Nat)) (hclose : opts.close ≠ CloseSpec.absent) :
    (serverShutdown (pluginRegister opts a).1
        (regAll (pluginRegister opts a).1.registry regs)).events
      = [ShutdownEvent.closeInvoked]
        ++ (match (pluginRegister opts a).1.debuggered with
            | some h => [ShutdownEvent.debuggerClosed h]
            | none => [])
        ++ [ShutdownEvent.hooksRemoved]
        ++ (match closeError opts.close with
            | some e => [ShutdownEvent.errorPropagated e]
            | none => [])
      ∧ ∀ name,
          hookCallbacks (serverShutdown (pluginRegister opts a).1
              (regAll (pluginRegister opts a).1.registry regs)).registry name = [] := by
  have hc := pluginRegister_closeBehavior opts a
  constructor
  · cases hd : (pluginRegister opts a).1.debuggered <;>
      cases hcl : opts.close <;>
      simp_all [serverShutdown, runOnClose, closeError]
  · intro name
    simp [serverShutdown, runOnClose, hookCallbacks_removeAllHooks]

/-- C6 witness: with `close` supplied as a normally-completing callback, no
debugger options and one registered hook `greet`, shutdown produces exactly
the close-then-remove event sequence and `greet` has no callbacks left. -/
theorem shutdown_invokes_close_then_clears_witness :
    (serverShutdown (pluginRegister ⟨.succeeds, .vundefined, .vundefined, .vundefined⟩ ⟨0, 0⟩).1
        (regAll (pluginRegister ⟨.succeeds, .vundefined, .vundefined, .vundefined⟩ ⟨0, 0⟩).1.registry
          [("greet", 5)])).events
      = [ShutdownEvent.closeInvoked, ShutdownEvent.hooksRemoved]
      ∧ hookCallbacks (serverShutdown
          (pluginRegister ⟨.succeeds, .vundefined, .vundefined, .vundefined⟩ ⟨0, 0⟩).1
          (regAll (pluginRegister ⟨.succeeds, .vundefined, .vundefined, .vundefined⟩ ⟨0, 0⟩).1.registry
            [("greet", 5)])).registry "greet" = [] := by
  have h := shutdown_invokes_close_then_clears
    ⟨.succeeds, .vundefined, .vundefined, .vundefined⟩ ⟨0, 0⟩ [("greet", 5)] (by decide)
  exact ⟨h.1, h.2 "greet"⟩

/-- C7: the validator is total over arbitrary input and never throws: under
the throwing JavaScript semantics it returns `ok` of a boolean — the very
boolean the pure, effect-free embedding computes — for every input value. -/
theorem validator_total_never_throws (v : JSValue) :
    isCreateDebuggerOptionsE v = Except.ok (isCreateDebuggerOptions v) :=
  isCreateDebuggerOptionsE_ok v

/-- C8: every callable value is rejected by the validator (its runtime type
tag is `'function'`, not `'object'`), while an array carrying none of the
checked fields passes validation. -/
theorem functions_rejected_arrays_admitted :
    (∀ fid arity, isCreateDebuggerOptions (.vfunc fid arity) = false)
      ∧ ∀ props : List (String × JSValue),
          props.all (fun p =>
            !(p.1 == "tag" || p.1 == "inspect" || p.1 == "group" || p.1 == "filter")) = true →
          isCreateDebuggerOptions (.varr props) = true := by
  constructor
  · intro fid arity
    rfl
  · intro props h
    rw [isCreateDebuggerOptions_eq_spec]
    have hnone : ∀ k : String, (k = "tag" ∨ k = "inspect" ∨ k = "group" ∨ k = "filter") →
        props.any (fun p => p.1 == k) = false := by
      intro k hk
      rw [Bool.eq_false_iff]
      intro hany
      rw [List.any_eq_true] at hany
      obtain ⟨p, hp, hpk⟩ := hany
      have hall := List.all_eq_true.mp h p hp
      rcases hk with rfl | rfl | rfl | rfl <;> simp_all
    simp [specDebuggerOptionsValid, isStructure, fieldOk, hasField,
      hnone "tag" (Or.inl rfl), hnone "inspect" (Or.inr (Or.inl rfl)),
      hnone "group" (Or.inr (Or.inr (Or.inl rfl))),
      hnone "filter" (Or.inr (Or.inr (Or.inr rfl)))]

/-- C8 witness: the identity-like one-parameter function is rejected; the
array with one unrelated property is admitted. -/
theorem functions_rejected_arrays_admitted_witness :
    isCreateDebuggerOptions (.vfunc 3 1) = false
      ∧ isCreateDebuggerOptions (.varr [("x", .vnum 1)]) = true :=
  ⟨functions_rejected_arrays_admitted.1 3 1,
   functions_rejected_arrays_admitted.2 [("x", .vnum 1)] (by decide)⟩

/-- C9: a non-callable `before` or `after` option is silently ignored — no
observer is wired for it — and registration still completes normally
(no error under the throwing semantics). -/
theorem noncallable_observers_ignored (opts : Options) (a : Alloc) :
    (jsTypeof opts.before ≠ "function" → (pluginRegister opts a).1.registry.beforeObs = [])
      ∧ (jsTypeof opts.after ≠ "function" → (pluginRegister opts a).1.registry.afterObs = [])
      ∧ pluginRegisterE opts a = Except.ok (pluginRegister opts a) := by
  refine ⟨?_, ?_, pluginRegisterE_ok opts a⟩
  · intro h
    rw [pluginRegister_beforeObs, if_neg]
    simp [h]
  · intro h
    rw [pluginRegister_afterObs, if_neg]
    simp [h]

/-- C9 witness: a string `before` and a numeric `after` wire no observers,
and registration completes. -/
theorem noncallable_observers_ignored_witness :
    (pluginRegister ⟨.absent, .vstr "x", .vnum 3, .vundefined⟩ ⟨0, 0⟩).1.registry.beforeObs = []
      ∧ (pluginRegister ⟨.absent, .vstr "x", .vnum 3, .vundefined⟩ ⟨0, 0⟩).1.registry.afterObs
          = [] := by
  have h := noncallable_observers_ignored ⟨.absent, .vstr "x", .vnum 3, .vundefined⟩ ⟨0, 0⟩
  exact ⟨h.1 (by decide), h.2.1 (by decide)⟩

/-- C10: a structure in which one of the checked fields is present as a key
but bound to `undefined` is rejected: the `in` test sees the key, and the
type test on `undefined` fails. -/
theorem present_undefined_field_rejected (fs : List (String × JSValue)) (k : String)
    (hk : k = "tag" ∨ k = "inspect" ∨ k = "group" ∨ k = "filter")
    (hfind : fs.find? (fun p => p.1 == k) = some (k, .vundefined)) :
    isCreateDebuggerOptions (.vobj fs) = false := by
  rw [isCreateDebuggerOptions_eq_spec]
  have hhas : fs.any (fun p => p.1 == k) = true := by
    rw [List.any_eq_true]
    exact ⟨(k, .vundefined), List.mem_of_find?_eq_some hfind, by simp⟩
  have hget : getField (JSValue.vobj fs) k = JSValue.vundefined := by
    simp [getField, hfind]
  rcases hk with rfl | rfl | rfl | rfl <;>
    simp [specDebuggerOptionsValid, fieldOk, hasField, hhas, hget,
      isJSString, isJSBool, specFilterOk, isJSFunction, funcArity]

/-- C10 witness: the structure with one field `tag` bound to `undefined` is
rejected. -/
theorem present_undefined_field_rejected_witness :
    List.find? (fun p => p.1 == "tag") [("tag", JSValue.vundefined)]
        = some ("tag", JSValue.vundefined)
      ∧ isCreateDebuggerOptions (.vobj [("tag", .vundefined)]) = false :=
  ⟨rfl, present_undefined_field_rejected [("tag", .vundefined)] "tag" (Or.inl rfl) rfl⟩

end FastifyHookly
